import Mathlib

/-!
Verification development for the training driver `train.py` of the
Segmentation-Pytorch repository.  The driver's control flow is embedded
shallowly: external library calls (model forward/backward, metric
computation) are oracles, file I/O is an explicit map from paths to
contents, and the epoch loop is a fuel-indexed recursion that also emits a
trace of events, one per observable step of the loop body.
-/

namespace SegTrain

/-! ## Checkpoint save / load (train.py lines 146-159 and 193-198)

A checkpoint is the dict `{"epoch": epoch, "model": model.state_dict()}`;
`torch.save` / `torch.load` are modelled as writing / reading a value of
that shape in a path-indexed store.  The weight type is a parameter `W`. -/

structure Checkpoint (W : Type) where
  epoch : Nat
  model : W
  deriving DecidableEq, Repr

/-- The file system, as far as checkpoints are concerned: a map from paths
to the checkpoint stored there, `none` when no file exists (`os.path.isfile`
is false). -/
def CkFs (W : Type) : Type := String → Option (Checkpoint W)

/-- `torch.save(state, path)`: store the checkpoint at the path. -/
def torchSave {W : Type} (fs : CkFs W) (path : String) (c : Checkpoint W) : CkFs W :=
  fun p => if p = path then some c else fs p

/-- Checkpoint file name built at train.py line 193:
`args.savedir + '/model_' + str(epoch) + '.pth'`. -/
def model_file_name (savedir : String) (epoch : Nat) : String :=
  savedir ++ "/model_" ++ toString epoch ++ ".pth"

/-- Embedding of the resume block, train.py lines 146 and 153-159.
Returns `(start_epoch, model weights, printed messages)`:

* `if args.resume:` — Python truthiness of the string, i.e. `resume ≠ ""`;
* `if os.path.isfile(args.resume):` — the store holds a file there;
  then `start_epoch = checkpoint['epoch'] + 1` and
  `model.load_state_dict(checkpoint['model'])`;
* otherwise `print("no checkpoint found at '...'")` and nothing changes:
  `start_epoch` keeps its initial value 1 and the weights stay `w0`.

(Lines 147-152 additionally re-read the plain-text log to rebuild the
plotting lists; they touch neither `start_epoch` nor the weights and are
modelled with the epoch loop, not here.) -/
def resumeBranch {W : Type} (resume : String) (fs : CkFs W) (w0 : W) :
    Nat × W × List String :=
  if resume ≠ "" then
    match fs resume with
    | some c =>
        (c.epoch + 1, c.model,
         ["loaded checkpoint '" ++ resume ++ "' (epoch " ++ toString c.epoch ++ ")"])
    | none => (1, w0, ["no checkpoint found at '" ++ resume ++ "'"])
  else (1, w0, [])

/-! ## The per-epoch train function (train.py lines 24-61)

The numerically heavy part — the forward pass, the loss, backpropagation —
is the external framework's; per batch it yields one scalar `loss.item()`,
modelled by an oracle `lossOf : B → ℚ` over an abstract batch type.  The
function appends each batch loss to `epoch_loss` and finally returns
`sum(epoch_loss) / len(epoch_loss)` together with the learning rate read
from the optimizer.  Python division raises `ZeroDivisionError` on a zero
denominator, so the embedding returns `Except`. -/

/-- Python `/` on rationals: `ZeroDivisionError` when the denominator is 0. -/
def pydiv (a b : ℚ) : Except String ℚ :=
  if b = 0 then Except.error "ZeroDivisionError" else Except.ok (a / b)

/-- Embedding of `train` (train.py lines 24-61): `lr` is
`optimizer.param_groups[0]['lr']`, `batches` the loader's batches in order,
`lossOf b` the value `loss.item()` the framework produces for batch `b`.
Returns `(average_epoch_loss_train, lr)`. -/
def train {B : Type} (lr : ℚ) (batches : List B) (lossOf : B → ℚ) :
    Except String (ℚ × ℚ) :=
  let epoch_loss := batches.map lossOf
  match pydiv epoch_loss.sum (epoch_loss.length : ℚ) with
  | Except.error msg => Except.error msg
  | Except.ok avg => Except.ok (avg, lr)

/-! ## The epoch loop (train.py lines 138-214)

The loop is embedded as a fuel-indexed recursion over
`range(start_epoch, max_epochs + 1)`.  Each epoch body returns the updated
loop state, the list of events it performed (in program order), and the
`break` flag of the early-stopping check.  The external computations —
`train`'s average loss, the optimizer's learning rate, `predict_sliding`'s
metrics — are an oracle indexed by the epoch number. -/

/-- The tuple `predict_sliding` returns at train.py line 172
(`val_loss, FWIoU, mIOU, per_class_iu, pa, cpa, mpa`). -/
structure ValRes where
  val_loss : ℚ
  fwIoU : ℚ
  mIOU : ℚ
  per_class_iu : List ℚ
  pa : ℚ
  cpa : ℚ
  mpa : ℚ
  deriving DecidableEq, Repr

/-- External computations of one epoch, indexed by the epoch number:
`trainLoss e` and `lrAt e` are the pair returned by `train` at epoch `e`
(the loss from the framework's backward pass, the learning rate read from
the optimizer under the `StepLR` schedule), `valAt e` the metrics
`predict_sliding` yields at epoch `e`. -/
structure Oracle where
  trainLoss : Nat → ℚ
  lrAt : Nat → ℚ
  valAt : Nat → ValRes

/-- The arguments of `main` the loop body reads. -/
structure Params where
  max_epochs : Nat
  val_epochs : Nat
  deriving DecidableEq, Repr

/-- Modelled from the spec: `utils/earlyStopping.py` is not under src/; the
spec describes the early-stopping monitor as "a patience counter compared
against a tracked validation metric" with two states (monitoring, stopped).
`monitor m` resets the counter when the metric improves on the tracked
best, otherwise increments it, and sets `early_stop` once the counter
reaches the patience. -/
structure EarlyStopping where
  patience : Nat
  best : Option ℚ
  counter : Nat
  early_stop : Bool
  deriving DecidableEq, Repr

/-- One `early_stopping.monitor(monitor=m)` call (see `EarlyStopping`). -/
def EarlyStopping.monitor (es : EarlyStopping) (m : ℚ) : EarlyStopping :=
  match es.best with
  | none => { es with best := some m, counter := 0 }
  | some b =>
      if b < m then { es with best := some m, counter := 0 }
      else
        { es with counter := es.counter + 1,
                  early_stop := es.early_stop || decide (es.patience ≤ es.counter + 1) }

/-- Modelled from the spec: `utils/record_log.py` is not under src/; the
spec says the log is "a plain-text training log with one line per epoch
(epoch, lr, train loss, val loss, FWIoU, mIOU, per-class IoU)".  Each
record call appends one line holding exactly the values its call site in
train.py passes; fields a call does not receive are `none`. -/
structure LogLine where
  epoch : Nat
  lr : ℚ
  lossTr : ℚ
  val_loss : Option ℚ
  fwIoU : Option ℚ
  mIOU : Option ℚ
  per_class_iu : Option (List ℚ)
  deriving DecidableEq, Repr

/-- `recorder.record_trainVal_log(...)` (train.py line 180): one line with
every field, taken from the epoch's train result and validation metrics. -/
def record_trainVal_log (e : Nat) (lr lossTr : ℚ) (v : ValRes) : LogLine :=
  ⟨e, lr, lossTr, some v.val_loss, some v.fwIoU, some v.mIOU, some v.per_class_iu⟩

/-- `recorder.record_train_log(logger, epoch, lr, lossTr)` (train.py line
184): one line from the three train-side values only. -/
def record_train_log (e : Nat) (lr lossTr : ℚ) : LogLine :=
  ⟨e, lr, lossTr, none, none, none, none⟩

/-- One observable step of the loop body, tagged with its epoch.
`validation`/`recordTrainVal`/`recordTrain` are the branch at lines
170-184; `earlyBreakSave`/`earlyBreakValidation` are the extra
`torch.save` and `predict_sliding` inside the early-stop break branch
(lines 203-210). -/
inductive Event where
  | trainStep (e : Nat)
  | validation (e : Nat)
  | recordTrainVal (e : Nat)
  | recordTrain (e : Nat)
  | lrStep (e : Nat)
  | drawLog (e : Nat)
  | saveCheckpoint (e : Nat)
  | earlyStopCheck (e : Nat)
  | earlyBreakSave (e : Nat)
  | earlyBreakValidation (e : Nat)
  deriving DecidableEq, Repr

/-- Mutable state of the epoch loop: the early-stopping object, the last
validation mIOU (`mIOU_val`, initialised 0 at line 144), the three
plotting lists, the log file's lines, and the set of epochs whose
checkpoint file `model_<e>.pth` exists (`os.path.exists`). -/
structure LoopState where
  es : EarlyStopping
  mIOU_val : ℚ
  lossTr_list : List ℚ
  mIOU_val_list : List ℚ
  lossVal_list : List ℚ
  log : List LogLine
  savedEpochs : List Nat
  deriving DecidableEq, Repr

/-- The validation condition at train.py line 170:
`epoch % args.val_epochs == 0 or epoch == 1 or epoch == args.max_epochs`. -/
def valCond (p : Params) (e : Nat) : Bool :=
  e % p.val_epochs == 0 || e == 1 || e == p.max_epochs

/-- The regular save condition at lines 195-197: `epoch > max_epochs - 10`
or (elif) `epoch % 10 == 0`; the subtraction is Python's, over ℤ. -/
def saveCond (p : Params) (e : Nat) : Bool :=
  decide ((p.max_epochs : ℤ) - 10 < (e : ℤ)) || e % 10 == 0

/-- Result of one epoch body: next state, the epoch's events in program
order, and whether the `break` at line 211 fires. -/
structure StepRes where
  st : LoopState
  ev : List Event
  stop : Bool

/-- One iteration of the epoch loop, train.py lines 164-211, for epoch `e`:
train; validate and record (or record train-only); `lr_scheduler.step()`;
`draw_log`; conditional `torch.save`; early-stopping monitor, and on
`early_stop` save the epoch's checkpoint if its file does not exist yet,
run one more `predict_sliding`, and break.  The model's sliding flag is
the default `True`, so validation is the `predict_sliding` branch. -/
def epochBody (p : Params) (or : Oracle) (e : Nat) (s : LoopState) : StepRes :=
  let lossTr := or.trainLoss e
  let lr := or.lrAt e
  let s1 : LoopState := { s with lossTr_list := s.lossTr_list ++ [lossTr] }
  let ev1 : List Event := [Event.trainStep e]
  let (s2, ev2) :=
    if valCond p e then
      let v := or.valAt e
      ({ s1 with
          mIOU_val := v.mIOU,
          mIOU_val_list := s1.mIOU_val_list ++ [v.mIOU],
          lossVal_list := s1.lossVal_list ++ [v.val_loss],
          log := s1.log ++ [record_trainVal_log e lr lossTr v] },
       ev1 ++ [Event.validation e, Event.recordTrainVal e])
    else
      ({ s1 with log := s1.log ++ [record_train_log e lr lossTr] },
       ev1 ++ [Event.recordTrain e])
  let ev3 := ev2 ++ [Event.lrStep e, Event.drawLog e]
  let (s4, ev4) :=
    if saveCond p e then
      ({ s2 with savedEpochs := s2.savedEpochs ++ [e] }, ev3 ++ [Event.saveCheckpoint e])
    else (s2, ev3)
  let es2 := s4.es.monitor s4.mIOU_val
  let s5 : LoopState := { s4 with es := es2 }
  let ev5 := ev4 ++ [Event.earlyStopCheck e]
  if es2.early_stop then
    if e ∈ s5.savedEpochs then ⟨s5, ev5, true⟩
    else
      ⟨{ s5 with savedEpochs := s5.savedEpochs ++ [e] },
       ev5 ++ [Event.earlyBreakSave e, Event.earlyBreakValidation e], true⟩
  else ⟨s5, ev5, false⟩

/-- The loop `for epoch in range(e, max_epochs + 1)` run with the given
fuel, returning the final state and the concatenated trace.  Called with
fuel `max_epochs + 1 - e` this is exactly train.py lines 164-211. -/
def runFrom (p : Params) (or : Oracle) : Nat → Nat → LoopState → LoopState × List Event
  | _, 0, s => (s, [])
  | e, f + 1, s =>
      if e ≤ p.max_epochs then
        let r := epochBody p or e s
        if r.stop then (r.st, r.ev)
        else
          let rest := runFrom p or (e + 1) f r.st
          (rest.1, r.ev ++ rest.2)
      else (s, [])

/-- The whole loop from `start_epoch` (line 164). -/
def runTraining (p : Params) (or : Oracle) (start_epoch : Nat) (s0 : LoopState) :
    LoopState × List Event :=
  runFrom p or start_epoch (p.max_epochs + 1 - start_epoch) s0

/-! ## Program entry: dataset dispatch, construction, CUDA check
(train.py lines 64-161 and 253-281) -/

/-- The command-line arguments the embedded parts of the program read
(`parse_args`, lines 217-250).  `input_size` is a pair of pixel sizes;
`classes` is the field the `__main__` dispatch adds to `args`. -/
structure Args where
  model : String
  dataset : String
  input_size : Nat × Nat
  classes : Nat
  batch_size : Nat
  max_epochs : Nat
  val_epochs : Nat
  cuda : Bool
  gpus : String
  resume : String
  savedir : String
  deriving DecidableEq, Repr

/-- What the `__main__` dispatch (lines 257-276) derives from the dataset
name: class count, input size, ignore label. -/
structure DatasetCfg where
  classes : Nat
  input_size : Nat × Nat
  ignore_label : Nat
  deriving DecidableEq, Repr

/-- The dataset dispatch of `__main__`, lines 257-279: the five supported
names and their configurations; any other name reaches the
`NotImplementedError` at line 278. -/
def datasetDispatch (d : String) : Option DatasetCfg :=
  if d = "cityscapes" then some ⟨19, (512, 512), 255⟩
  else if d = "camvid" then some ⟨11, (360, 480), 11⟩
  else if d = "paris" then some ⟨3, (512, 512), 255⟩
  else if d = "road" then some ⟨2, (512, 512), 255⟩
  else if d = "ai" then some ⟨8, (256, 256), 255⟩
  else none

/-- The assignments the dispatch performs on `args` before `main(args)` is
called: `args.classes = ...` and `args.input_size = ...` (lines 258-275),
overwriting whatever `--input_size` carried. -/
def applyDatasetConfig (a : Args) (c : DatasetCfg) : Args :=
  { a with classes := c.classes, input_size := c.input_size }

/-- The construction steps of `main` before the training loop, in program
order: `build_model` (line 78), `init_weight` (79), `build_dataset_train`
(82), `build_dataset_test` (85), `build_loss` (93), the optimizer (96-102),
the `StepLR` scheduler (105). -/
inductive BuildEvent where
  | buildModel
  | initWeight
  | buildDatasetTrain
  | buildDatasetTest
  | buildLoss
  | buildOptimizer
  | buildScheduler
  deriving DecidableEq, Repr

/-- The machine the program runs on, as the CUDA block observes it:
`cudaAvailable` is `torch.cuda.is_available()` after
`CUDA_VISIBLE_DEVICES` is set to `args.gpus` (false both when no GPU
exists and when the gpu-id string selects none), `deviceCount` is
`torch.cuda.device_count()`. -/
structure Env where
  cudaAvailable : Bool
  deviceCount : Nat
  deriving DecidableEq, Repr

/-- The observable outcome of a successful `main` run. `usedTrainInputSize`
is the size handed to `build_dataset_train` (line 82); `usedValInputSize`
the size handed to `predict_sliding` (line 173); `start_epoch`, `weights`
and `resumePrints` come from the resume block; `final` and `trace` from
the epoch loop. -/
structure MainRes (W : Type) where
  usedTrainInputSize : Nat × Nat
  usedValInputSize : Nat × Nat
  gpu_nums : Nat
  start_epoch : Nat
  weights : W
  resumePrints : List String
  final : LoopState
  trace : List Event
  deriving Repr

/-- The initial loop state built by `main` before line 164: a fresh
`EarlyStopping(patience=50)` (line 138), `mIOU_val = 0` (line 144), empty
lists (141-143), the log file's prior lines and the checkpoint files
already on disk.  (On resume, lines 148-152 re-fill the plotting lists
from the prior log; those lists feed only the external `draw_log`, and the
re-fill is left out of the model.) -/
def initState (log0 : List LogLine) (saved0 : List Nat) : LoopState :=
  ⟨⟨50, none, 0, false⟩, 0, [], [], [], log0, saved0⟩

/-- `main(args)` followed by the loop, embedded: the construction steps of
lines 78-105 are reported as events; the CUDA block (108-121) raises
`No GPU found or Wrong gpu id` when `args.cuda` and
`torch.cuda.is_available()` is false, otherwise records the device count
as `gpu_nums`; the resume block sets `start_epoch` and the weights; the
epoch loop runs from `start_epoch`.  `w0` is the model's weights after
`init_weight`. -/
def mainFn {W : Type} (a : Args) (env : Env) (or : Oracle) (fs : CkFs W) (w0 : W)
    (log0 : List LogLine) (saved0 : List Nat) :
    List BuildEvent × Except String (MainRes W) :=
  let built := [BuildEvent.buildModel, BuildEvent.initWeight,
                BuildEvent.buildDatasetTrain, BuildEvent.buildDatasetTest,
                BuildEvent.buildLoss, BuildEvent.buildOptimizer,
                BuildEvent.buildScheduler]
  if a.cuda && !env.cudaAvailable then
    (built, Except.error "No GPU found or Wrong gpu id, please run without --cuda")
  else
    let gpu_nums := if a.cuda && decide (1 < env.deviceCount) then env.deviceCount else 1
    let rb := resumeBranch a.resume fs w0
    let p : Params := ⟨a.max_epochs, a.val_epochs⟩
    let run := runTraining p or rb.1 (initState log0 saved0)
    (built,
     Except.ok
       { usedTrainInputSize := a.input_size
         usedValInputSize := a.input_size
         gpu_nums := gpu_nums
         start_epoch := rb.1
         weights := rb.2.1
         resumePrints := rb.2.2
         final := run.1
         trace := run.2 })

/-- The `__main__` block (lines 253-281): dispatch on the dataset name;
an unsupported name raises `NotImplementedError` before `main` runs, so no
construction step happens; otherwise `main` runs on the updated `args`. -/
def programMain {W : Type} (a : Args) (env : Env) (or : Oracle) (fs : CkFs W)
    (w0 : W) (log0 : List LogLine) (saved0 : List Nat) :
    List BuildEvent × Except String (MainRes W) :=
  match datasetDispatch a.dataset with
  | none =>
      ([], Except.error
        ("This repository now supports datasets " ++ a.dataset ++ " is not included"))
  | some cfg => mainFn (applyDatasetConfig a cfg) env or fs w0 log0 saved0

/-! ## Theorems about the checkpoint store and the train function -/

lemma model_file_name_ne_empty (sd : String) (e : Nat) : model_file_name sd e ≠ "" := by
  intro h
  have h2 := congrArg String.length h
  simp [model_file_name, String.length_append, String.length_empty] at h2
  exact absurd h2.2 (by decide)

/-- C1: the checkpoint written at epoch `e` stores exactly the epoch `e`
and the weights `w` current at that point, and resuming from that file
loads those same weights and sets the starting epoch to `e + 1`. -/
theorem checkpoint_roundtrip {W : Type} (fs : CkFs W) (sd : String) (e : Nat) (w w0 : W) :
    torchSave fs (model_file_name sd e) ⟨e, w⟩ (model_file_name sd e) = some ⟨e, w⟩ ∧
    resumeBranch (model_file_name sd e) (torchSave fs (model_file_name sd e) ⟨e, w⟩) w0 =
      (e + 1, w,
       ["loaded checkpoint '" ++ model_file_name sd e ++ "' (epoch " ++ toString e ++ ")"]) := by
  refine ⟨by simp [torchSave], ?_⟩
  simp [resumeBranch, model_file_name_ne_empty sd e, torchSave]

/-- C5: a resume path naming no existing file is reported by a print and
training starts from scratch: starting epoch 1, weights as initialised,
and no error. -/
theorem resume_missing_file {W : Type} (p : String) (fs : CkFs W) (w0 : W)
    (hp : p ≠ "") (hfs : fs p = none) :
    resumeBranch p fs w0 = (1, w0, ["no checkpoint found at '" ++ p ++ "'"]) := by
  simp [resumeBranch, hp, hfs]

/-- Witness for C5 at a concrete path and an empty store. -/
theorem resume_missing_file_witness :
    resumeBranch "ckpt.pth" (fun _ => (none : Option (Checkpoint Nat))) 7 =
      (1, 7, ["no checkpoint found at 'ckpt.pth'"]) :=
  resume_missing_file "ckpt.pth" (fun _ => none) 7 (by decide) rfl

/-- C9: on a non-empty loader `train` returns the arithmetic mean of the
per-batch losses, and on an empty loader the division at line 60 hits its
zero-denominator branch (Python `ZeroDivisionError`). -/
theorem train_average_loss {B : Type} (lr : ℚ) (lossOf : B → ℚ) (batches : List B) :
    (batches ≠ [] →
      train lr batches lossOf =
        Except.ok ((batches.map lossOf).sum / (batches.length : ℚ), lr)) ∧
    (batches = [] → train lr batches lossOf = Except.error "ZeroDivisionError") := by
  constructor
  · intro h
    have h0 : batches.length ≠ 0 := fun hh => h (List.length_eq_zero.mp hh)
    have hl : (batches.length : ℚ) ≠ 0 := Nat.cast_ne_zero.mpr h0
    simp [train, pydiv, List.length_map, hl]
  · intro h
    subst h
    simp [train, pydiv]

/-- Witness for C9: mean of the two batch losses 3 and 5 is 4; the empty
loader reaches the division-by-zero error. -/
theorem train_average_loss_witness :
    train (1 : ℚ) [(3 : ℚ), 5] id = Except.ok (4, 1) ∧
    train (1 : ℚ) ([] : List ℚ) id = Except.error "ZeroDivisionError" := by
  constructor
  · have h := (train_average_loss (1 : ℚ) id [(3 : ℚ), 5]).1 (by simp)
    rw [h]
    norm_num
  · exact (train_average_loss (1 : ℚ) id []).2 rfl

/-! ## Theorems about the program entry -/

/-- A concrete oracle for witnesses: loss 2, lr 1, constant metrics. -/
def sampleOracle : Oracle :=
  ⟨fun _ => 2, fun _ => 1, fun _ => ⟨1, 1, 1, [1], 1, 1, 1⟩⟩

/-- A concrete machine with one usable GPU. -/
def sampleEnv : Env := ⟨true, 1⟩

/-- Concrete arguments: dataset `paris`, an explicit `--input_size` of
`(111, 222)`, one epoch. -/
def sampleArgs : Args :=
  { model := "DualSeg_res50", dataset := "paris", input_size := (111, 222),
    classes := 0, batch_size := 4, max_epochs := 1, val_epochs := 1,
    cuda := true, gpus := "0", resume := "", savedir := "./checkpoint/" }

/-- C4: a dataset name outside the five supported ones makes `__main__`
raise before `main` runs: the error is returned and the list of performed
construction steps is empty. -/
theorem unsupported_dataset_fatal {W : Type} (a : Args) (env : Env) (or : Oracle)
    (fs : CkFs W) (w0 : W) (log0 : List LogLine) (saved0 : List Nat)
    (h1 : a.dataset ≠ "cityscapes") (h2 : a.dataset ≠ "camvid")
    (h3 : a.dataset ≠ "paris") (h4 : a.dataset ≠ "road") (h5 : a.dataset ≠ "ai") :
    programMain a env or fs w0 log0 saved0 =
      ([], Except.error
        ("This repository now supports datasets " ++ a.dataset ++ " is not included")) := by
  simp [programMain, datasetDispatch, h1, h2, h3, h4, h5]

/-- Witness for C4 at the unsupported name `voc`. -/
theorem unsupported_dataset_fatal_witness :
    programMain { sampleArgs with dataset := "voc" } sampleEnv sampleOracle
        (fun _ => (none : Option (Checkpoint Nat))) 0 [] [] =
      ([], Except.error
        ("This repository now supports datasets " ++ "voc" ++ " is not included")) :=
  unsupported_dataset_fatal { sampleArgs with dataset := "voc" } sampleEnv sampleOracle
    (fun _ => none) 0 [] [] (by decide) (by decide) (by decide) (by decide) (by decide)

/-- C6: with `--cuda` requested and `torch.cuda.is_available()` false (no
GPU, or a gpu-id string selecting none), `main` raises
`No GPU found or Wrong gpu id` and the training loop never runs. -/
theorem no_gpu_fatal {W : Type} (a : Args) (env : Env) (or : Oracle) (fs : CkFs W)
    (w0 : W) (log0 : List LogLine) (saved0 : List Nat) (cfg : DatasetCfg)
    (hd : datasetDispatch a.dataset = some cfg)
    (hc : a.cuda = true) (hg : env.cudaAvailable = false) :
    (programMain a env or fs w0 log0 saved0).2 =
      Except.error "No GPU found or Wrong gpu id, please run without --cuda" := by
  simp [programMain, hd, mainFn, applyDatasetConfig, hc, hg]

/-- Witness for C6: dataset `paris`, GPU absent. -/
theorem no_gpu_fatal_witness :
    (programMain sampleArgs ⟨false, 0⟩ sampleOracle
        (fun _ => (none : Option (Checkpoint Nat))) 0 [] []).2 =
      Except.error "No GPU found or Wrong gpu id, please run without --cuda" :=
  no_gpu_fatal sampleArgs ⟨false, 0⟩ sampleOracle (fun _ => none) 0 [] []
    ⟨3, (512, 512), 255⟩ rfl rfl rfl

/-- C8 fails on the code: with dataset `paris` and `--input_size`
`(111, 222)`, the size handed to `build_dataset_train` and to
`predict_sliding` is `(512, 512)`, not the flag's value — the `__main__`
dispatch overwrites `args.input_size` before `main` runs. -/
theorem input_size_flag_counterexample :
    sampleArgs.input_size = (111, 222) ∧
    ∃ r : MainRes Nat,
      (programMain sampleArgs sampleEnv sampleOracle (fun _ => none) 0 [] []).2 =
        Except.ok r ∧
      r.usedTrainInputSize ≠ sampleArgs.input_size ∧
      r.usedValInputSize ≠ sampleArgs.input_size ∧
      r.usedTrainInputSize = (512, 512) ∧ r.usedValInputSize = (512, 512) := by
  exact ⟨rfl, _, rfl, by decide, by decide, rfl, rfl⟩

/-- C8 amended: the input size `main` trains and validates with is the one
the dataset dispatch assigns for the chosen dataset, regardless of the
`--input_size` flag. -/
lemma mainFn_ok {W : Type} (a : Args) (env : Env) (or : Oracle) (fs : CkFs W)
    (w0 : W) (log0 : List LogLine) (saved0 : List Nat)
    (hq : (a.cuda && !env.cudaAvailable) = false) :
    (mainFn a env or fs w0 log0 saved0).2 =
      Except.ok
        { usedTrainInputSize := a.input_size
          usedValInputSize := a.input_size
          gpu_nums := if a.cuda && decide (1 < env.deviceCount) then env.deviceCount else 1
          start_epoch := (resumeBranch a.resume fs w0).1
          weights := (resumeBranch a.resume fs w0).2.1
          resumePrints := (resumeBranch a.resume fs w0).2.2
          final := (runTraining ⟨a.max_epochs, a.val_epochs⟩ or
                      (resumeBranch a.resume fs w0).1 (initState log0 saved0)).1
          trace := (runTraining ⟨a.max_epochs, a.val_epochs⟩ or
                      (resumeBranch a.resume fs w0).1 (initState log0 saved0)).2 } := by
  simp [mainFn, hq]

theorem input_size_from_dataset {W : Type} (a : Args) (env : Env) (or : Oracle)
    (fs : CkFs W) (w0 : W) (log0 : List LogLine) (saved0 : List Nat) (cfg : DatasetCfg)
    (hd : datasetDispatch a.dataset = some cfg)
    (hq : (a.cuda && !env.cudaAvailable) = false) :
    ∃ r, (programMain a env or fs w0 log0 saved0).2 = Except.ok r ∧
      r.usedTrainInputSize = cfg.input_size ∧ r.usedValInputSize = cfg.input_size := by
  have h := mainFn_ok (applyDatasetConfig a cfg) env or fs w0 log0 saved0
    (by simpa [applyDatasetConfig] using hq)
  have h2 : (programMain a env or fs w0 log0 saved0).2 =
      (mainFn (applyDatasetConfig a cfg) env or fs w0 log0 saved0).2 := by
    simp [programMain, hd]
  exact ⟨_, h2.trans h, rfl, rfl⟩

/-- Witness for C8's amended statement: dataset `paris` yields size
`(512, 512)` for both training and validation. -/
theorem input_size_from_dataset_witness :
    ∃ r, (programMain sampleArgs sampleEnv sampleOracle
        (fun _ => (none : Option (Checkpoint Nat))) 0 [] []).2 = Except.ok r ∧
      r.usedTrainInputSize = (512, 512) ∧ r.usedValInputSize = (512, 512) :=
  input_size_from_dataset sampleArgs sampleEnv sampleOracle (fun _ => none) 0 [] []
    ⟨3, (512, 512), 255⟩ rfl rfl

/-! ## Theorems about the epoch loop -/

/-- The shape of one epoch's events: train step, then the validation
branch (validate and record, or record train-only), then the
learning-rate step and the log figure, then the conditional checkpoint
save, then the early-stop check, then — only when the loop is about to
break and the epoch's file is missing — the break-branch save and
re-validation. -/
def epochBlock (e : Nat) (hv hs hx : Bool) : List Event :=
  [Event.trainStep e]
    ++ (if hv then [Event.validation e, Event.recordTrainVal e] else [Event.recordTrain e])
    ++ [Event.lrStep e, Event.drawLog e]
    ++ (if hs then [Event.saveCheckpoint e] else [])
    ++ [Event.earlyStopCheck e]
    ++ (if hx then [Event.earlyBreakSave e, Event.earlyBreakValidation e] else [])

/-- C2: every executed epoch performs its steps in the fixed order of
`epochBlock` (train, conditional validation, log record, lr step,
conditional save, early-stop check), and once the early-stop check sets
the break flag the loop ends with that epoch's events — no later epoch
performs any step; otherwise the loop continues with the next epoch. -/
theorem epoch_loop_step_order (p : Params) (or : Oracle) :
    (∀ e s, ∃ hv hs hx, (epochBody p or e s).ev = epochBlock e hv hs hx) ∧
    (∀ e f s, e ≤ p.max_epochs → (epochBody p or e s).stop = true →
      runFrom p or e (f + 1) s = ((epochBody p or e s).st, (epochBody p or e s).ev)) ∧
    (∀ e f s, e ≤ p.max_epochs → (epochBody p or e s).stop = false →
      runFrom p or e (f + 1) s =
        ((runFrom p or (e + 1) f (epochBody p or e s).st).1,
         (epochBody p or e s).ev ++ (runFrom p or (e + 1) f (epochBody p or e s).st).2)) := by
  refine ⟨fun e s => ?_, fun e f s he hstop => ?_, fun e f s he hstop => ?_⟩
  · unfold epochBody epochBlock
    by_cases h1 : valCond p e <;> by_cases h2 : saveCond p e <;>
      simp only [h1, h2, if_true, if_false, Bool.false_eq_true, ite_true, ite_false] <;>
      split_ifs <;>
      first
        | (refine ⟨true, true, false, ?_⟩; simp; done)
        | (refine ⟨true, true, true, ?_⟩; simp; done)
        | (refine ⟨true, false, false, ?_⟩; simp; done)
        | (refine ⟨true, false, true, ?_⟩; simp; done)
        | (refine ⟨false, true, false, ?_⟩; simp; done)
        | (refine ⟨false, true, true, ?_⟩; simp; done)
        | (refine ⟨false, false, false, ?_⟩; simp; done)
        | (refine ⟨false, false, true, ?_⟩; simp; done)
  · simp only [runFrom, he, if_true, hstop, ite_true]
  · simp only [runFrom, he, if_true, hstop, Bool.false_eq_true, ite_false]

/-- A loop state one bad epoch away from early stopping: patience 1, best
metric 2 already tracked, counter 0. -/
def stopState : LoopState := ⟨⟨1, some 2, 0, false⟩, 0, [], [], [], [], []⟩

/-- Witness for C2: at a concrete state the epoch's events have the
`epochBlock` shape, and since the early-stop check fires at epoch 2 the
remaining run is exactly that epoch. -/
theorem epoch_loop_step_order_witness :
    (∃ hv hs hx, (epochBody ⟨5, 1⟩ sampleOracle 2 stopState).ev = epochBlock 2 hv hs hx) ∧
    runFrom ⟨5, 1⟩ sampleOracle 2 4 stopState =
      ((epochBody ⟨5, 1⟩ sampleOracle 2 stopState).st,
       (epochBody ⟨5, 1⟩ sampleOracle 2 stopState).ev) := by
  refine ⟨(epoch_loop_step_order ⟨5, 1⟩ sampleOracle).1 2 stopState, ?_⟩
  exact (epoch_loop_step_order ⟨5, 1⟩ sampleOracle).2.1 2 3 stopState (by decide) (by decide)

/-- C7: the validating-and-recording step of the loop body runs exactly at
the epochs with `e % val_epochs == 0 or e == 1 or e == max_epochs`; at
every other epoch only the train-side record is made and the validation
lists are untouched.  (The re-validation inside the early-stop break
branch is the separate `earlyBreakValidation` event; it records nothing.)
`hpos` reflects that Python `%` needs a positive `val_epochs`. -/
theorem validation_periodicity (p : Params) (or : Oracle) (e : Nat) (s : LoopState)
    (hpos : 0 < p.val_epochs) :
    ((e % p.val_epochs = 0 ∨ e = 1 ∨ e = p.max_epochs) →
      Event.validation e ∈ (epochBody p or e s).ev ∧
      Event.recordTrainVal e ∈ (epochBody p or e s).ev ∧
      (epochBody p or e s).st.mIOU_val_list = s.mIOU_val_list ++ [(or.valAt e).mIOU] ∧
      (epochBody p or e s).st.lossVal_list = s.lossVal_list ++ [(or.valAt e).val_loss]) ∧
    (¬(e % p.val_epochs = 0 ∨ e = 1 ∨ e = p.max_epochs) →
      Event.validation e ∉ (epochBody p or e s).ev ∧
      Event.recordTrainVal e ∉ (epochBody p or e s).ev ∧
      Event.recordTrain e ∈ (epochBody p or e s).ev ∧
      (epochBody p or e s).st.mIOU_val_list = s.mIOU_val_list ∧
      (epochBody p or e s).st.lossVal_list = s.lossVal_list) := by
  have hb : valCond p e = true ↔ (e % p.val_epochs = 0 ∨ e = 1 ∨ e = p.max_epochs) := by
    simp [valCond, or_assoc]
  constructor
  · intro h
    have hv : valCond p e = true := hb.mpr h
    unfold epochBody
    simp only [hv, ite_true, if_true]
    split_ifs <;> refine ⟨by simp, by simp, by simp, by simp⟩
  · intro h
    have hv : valCond p e = false := by
      rcases Bool.eq_false_or_eq_true (valCond p e) with ht | hf
      · exact absurd (hb.mp ht) h
      · exact hf
    unfold epochBody
    simp only [hv, ite_false, Bool.false_eq_true, if_false]
    split_ifs <;> refine ⟨by simp, by simp, by simp, by simp, by simp⟩

/-- Witness for C7: with `val_epochs = 2` and `max_epochs = 5`, epoch 2
validates and epoch 3 does not. -/
theorem validation_periodicity_witness :
    Event.validation 2 ∈ (epochBody ⟨5, 2⟩ sampleOracle 2 (initState [] [])).ev ∧
    Event.validation 3 ∉ (epochBody ⟨5, 2⟩ sampleOracle 3 (initState [] [])).ev := by
  constructor
  · exact ((validation_periodicity ⟨5, 2⟩ sampleOracle 2 (initState [] [])
      (by decide)).1 (Or.inl (by decide))).1
  · exact ((validation_periodicity ⟨5, 2⟩ sampleOracle 3 (initState [] [])
      (by decide)).2 (by decide)).1

/-- C10: the regular save step writes epoch `e`'s checkpoint exactly when
`e > max_epochs - 10` (Python integer arithmetic) or `e % 10 == 0`; and
whenever the early-stop break fires at `e`, epoch `e`'s file exists when
the loop exits — in particular the break branch writes it when neither
the regular step this epoch nor an earlier run had. -/
theorem checkpoint_save_condition (p : Params) (or : Oracle) (e : Nat) (s : LoopState) :
    (Event.saveCheckpoint e ∈ (epochBody p or e s).ev ↔
      ((p.max_epochs : ℤ) - 10 < (e : ℤ) ∨ e % 10 = 0)) ∧
    ((epochBody p or e s).stop = true → e ∈ (epochBody p or e s).st.savedEpochs) ∧
    ((epochBody p or e s).stop = true →
      ¬((p.max_epochs : ℤ) - 10 < (e : ℤ) ∨ e % 10 = 0) → e ∉ s.savedEpochs →
      Event.earlyBreakSave e ∈ (epochBody p or e s).ev) := by
  have hb : saveCond p e = true ↔ ((p.max_epochs : ℤ) - 10 < (e : ℤ) ∨ e % 10 = 0) := by
    simp [saveCond]
  rw [← hb]
  unfold epochBody
  by_cases h1 : valCond p e <;> by_cases h2 : saveCond p e <;>
    simp only [h1, h2, ite_true, ite_false, Bool.false_eq_true, if_true, if_false] <;>
    split_ifs <;>
    refine ⟨?_, ?_, ?_⟩ <;>
    first
      | (simp [h2]; done)
      | (intro hst; simp at hst; done)
      | (intro hst; simp; done)
      | (intro hst; simp; assumption)
      | (intro hst hns hmem; simp at hst; done)
      | (intro hst hns hmem; exact absurd h2 hns)
      | (intro hst hns hmem; simp; done)
      | (intro hst hns hmem; exact absurd (by assumption) hmem)

/-- Witness for C10: with `max_epochs = 30`, epoch 10 is saved by the
regular step, epoch 3 is not, and when the early stop fires at epoch 3
the break branch saves it. -/
theorem checkpoint_save_condition_witness :
    Event.saveCheckpoint 10 ∈ (epochBody ⟨30, 1⟩ sampleOracle 10 (initState [] [])).ev ∧
    Event.saveCheckpoint 3 ∉ (epochBody ⟨30, 1⟩ sampleOracle 3 (initState [] [])).ev ∧
    Event.earlyBreakSave 3 ∈ (epochBody ⟨30, 1⟩ sampleOracle 3 stopState).ev := by
  refine ⟨?_, ?_, ?_⟩
  · exact (checkpoint_save_condition ⟨30, 1⟩ sampleOracle 10 (initState [] [])).1.mpr
      (Or.inr (by decide))
  · intro hmem
    exact absurd ((checkpoint_save_condition ⟨30, 1⟩ sampleOracle 3
      (initState [] [])).1.mp hmem) (by decide)
  · exact (checkpoint_save_condition ⟨30, 1⟩ sampleOracle 3 stopState).2.2
      (by decide) (by decide) (by decide)

/-- C3 fails on the code: at an epoch that does not validate (here epoch 2
with `val_epochs = 3`, `max_epochs = 4`) the single appended line is the
train-side record, which carries no val loss, FWIoU, mIOU or per-class
IoU — `record_train_log` receives only epoch, lr and train loss. -/
theorem train_log_missing_val_fields :
    (epochBody ⟨4, 3⟩ sampleOracle 2 (initState [] [])).st.log =
      [record_train_log 2 1 2] ∧
    (record_train_log 2 (1 : ℚ) (2 : ℚ)).val_loss = none ∧
    (record_train_log 2 (1 : ℚ) (2 : ℚ)).fwIoU = none ∧
    (record_train_log 2 (1 : ℚ) (2 : ℚ)).mIOU = none ∧
    (record_train_log 2 (1 : ℚ) (2 : ℚ)).per_class_iu = none := by
  exact ⟨rfl, rfl, rfl, rfl, rfl⟩

/-- C3 amended: every completed epoch appends exactly one line holding the
epoch number, the learning rate and the train loss; on validating epochs
(`e % val_epochs == 0 or e == 1 or e == max_epochs`) the line additionally
holds the val loss, FWIoU, mIOU and per-class IoU, on the others it holds
no validation fields. -/
theorem log_line_per_epoch (p : Params) (or : Oracle) (e : Nat) (s : LoopState)
    (hpos : 0 < p.val_epochs) :
    ∃ ln : LogLine,
      (epochBody p or e s).st.log = s.log ++ [ln] ∧
      ln.epoch = e ∧ ln.lr = or.lrAt e ∧ ln.lossTr = or.trainLoss e ∧
      ((e % p.val_epochs = 0 ∨ e = 1 ∨ e = p.max_epochs) →
        ln = record_trainVal_log e (or.lrAt e) (or.trainLoss e) (or.valAt e)) ∧
      (¬(e % p.val_epochs = 0 ∨ e = 1 ∨ e = p.max_epochs) →
        ln = record_train_log e (or.lrAt e) (or.trainLoss e)) := by
  have hb : valCond p e = true ↔ (e % p.val_epochs = 0 ∨ e = 1 ∨ e = p.max_epochs) := by
    simp [valCond, or_assoc]
  by_cases hv : valCond p e
  · refine ⟨record_trainVal_log e (or.lrAt e) (or.trainLoss e) (or.valAt e), ?_,
      rfl, rfl, rfl, fun _ => rfl, fun hn => absurd (hb.mp hv) hn⟩
    unfold epochBody
    simp only [hv, ite_true, if_true]
    split_ifs <;> simp
  · refine ⟨record_train_log e (or.lrAt e) (or.trainLoss e), ?_,
      rfl, rfl, rfl, fun h => absurd h (fun hh => hv (hb.mpr hh)), fun _ => rfl⟩
    unfold epochBody
    simp only [hv, ite_false, Bool.false_eq_true, if_false]
    split_ifs <;> simp

/-- Witness for C3's amended statement: epoch 1 validates, so its line is
the full `record_trainVal_log` line. -/
theorem log_line_per_epoch_witness :
    ∃ ln : LogLine,
      (epochBody ⟨4, 3⟩ sampleOracle 1 (initState [] [])).st.log = [] ++ [ln] ∧
      ln = record_trainVal_log 1 1 2 (sampleOracle.valAt 1) := by
  obtain ⟨ln, hlog, _, _, _, hval, _⟩ :=
    log_line_per_epoch ⟨4, 3⟩ sampleOracle 1 (initState [] []) (by decide)
  exact ⟨ln, hlog, hval (Or.inr (Or.inl rfl))⟩

end SegTrain
